import Mathlib

/-!
Verification of the bswebpilot locator abstraction and session wrappers.

The development shallowly embeds the three Python source files:
  - `bswebpilot/utils/locator.py`        (class `BSLocator`)
  - `bswebpilot/bsplaywright/bscmfx.py`  (class `BSCmfx`, async Playwright/Camoufox wrapper)
  - `bswebpilot/bsselenium/webdriver.py` (class `BSWebDriver`, Selenium wrapper)

Pure string manipulation is translated directly.  Stateful browser
operations are modelled against a static DOM: the page is a fixed map
from engine-native selector strings to the list of matching elements,
so a wait resolves immediately when the condition already holds and
times out otherwise (a static page never changes during a wait).
Python exceptions are modelled with `Except`; an uncaught exception is
an `Except.error` carrying the exception kind.
-/

namespace BSWebPilot

/- The selenium `By` strategy constants (`selenium.webdriver.common.by.By`),
the eight enumerated locator strategies. -/
namespace By

def ID : String := "id"

def NAME : String := "name"

def CLASS_NAME : String := "class name"

def TAG_NAME : String := "tag name"

def CSS_SELECTOR : String := "css selector"

def XPATH : String := "xpath"

def LINK_TEXT : String := "link text"

def PARTIAL_LINK_TEXT : String := "partial link text"

end By

/-- The list of all eight strategy constants. -/
def strategies : List String :=
  [By.ID, By.NAME, By.CLASS_NAME, By.TAG_NAME, By.CSS_SELECTOR, By.XPATH,
   By.LINK_TEXT, By.PARTIAL_LINK_TEXT]

/-- Python `str.split(sep)` for a one-character separator, on the character
list (structurally recursive so that concrete instances evaluate).
`split` on the empty string yields `[""]`, like Python. -/
def splitChar (sep : Char) : List Char → List (List Char)
  | [] => [[]]
  | c :: rest =>
    match splitChar sep rest with
    | [] => if c = sep then [[], []] else [[c]]
    | h :: t => if c = sep then [] :: h :: t else (c :: h) :: t

/-- Python `str.split(sep)` on strings. -/
def pySplit (s : String) (sep : Char) : List String :=
  (splitChar sep s.toList).map (fun cs => String.mk cs)

/-- Python `str.strip()` (whitespace trim at both ends; ASCII whitespace,
which covers every selector string in the repository). -/
def pyStrip (s : String) : String :=
  String.mk (((s.toList.dropWhile Char.isWhitespace).reverse.dropWhile
    Char.isWhitespace).reverse)

/-- Python `sep.join(items)`. -/
def joinWith (sep : String) : List String → String
  | [] => ""
  | [s] => s
  | s :: rest => s ++ sep ++ joinWith sep rest

/-- `BSLocator` from `bswebpilot/utils/locator.py`: a strategy (`by`) plus a
selector string (`value`).  The Python class compares `self.by` with the `By`
constants using `is`; locators are built through the factory methods, which
store exactly those module-level constants, so identity coincides with string
equality here. -/
structure BSLocator where
  «by» : String
  value : String
deriving DecidableEq, Repr

namespace BSLocator

/-- `as_tuple`. -/
def as_tuple (l : BSLocator) : String × String := (l.«by», l.value)

/-- Factory `BSLocator.id`. -/
def id (element_id : String) : BSLocator := ⟨By.ID, element_id⟩

/-- Factory `BSLocator.name`. -/
def name (n : String) : BSLocator := ⟨By.NAME, n⟩

/-- Factory `BSLocator.class_name`. -/
def class_name (c : String) : BSLocator := ⟨By.CLASS_NAME, c⟩

/-- Factory `BSLocator.tag_name`. -/
def tag_name (t : String) : BSLocator := ⟨By.TAG_NAME, t⟩

/-- Factory `BSLocator.css`. -/
def css (css_selector : String) : BSLocator := ⟨By.CSS_SELECTOR, css_selector⟩

/-- Factory `BSLocator.xpath`. -/
def xpath (xp : String) : BSLocator := ⟨By.XPATH, xp⟩

/-- Factory `BSLocator.link_text`. -/
def link_text (t : String) : BSLocator := ⟨By.LINK_TEXT, t⟩

/-- Factory `BSLocator.partial_link_text`. -/
def partial_link_text (t : String) : BSLocator := ⟨By.PARTIAL_LINK_TEXT, t⟩

/-- The comma-separated subselectors of a css value, as the Python code
computes them: `split(',')`, `strip()` each piece, drop empty pieces.
(`get_descendant` strips first and then filters on the stripped piece being
truthy; `get_nth_element` filters on `ss.strip()` and appends to `ss.strip()`;
both amount to this list.) -/
def cssSubselectors (value : String) : List String :=
  ((pySplit value ',').map pyStrip).filter (fun ss => ss ≠ "")

/-- `BSLocator.get_descendant`.  An uncaught `raise Exception(...)` is an
`Except.error` with the message. -/
def get_descendant (self other : BSLocator) : Except String BSLocator :=
  if self.«by» = By.XPATH then
    .ok (BSLocator.xpath (self.value ++ other.value))
  else if self.«by» = By.CSS_SELECTOR then
    .ok (BSLocator.css (joinWith ", "
      ((cssSubselectors self.value).map (fun ss => ss ++ " " ++ other.value))))
  else
    .error "BSLocator Concatenation Error"

/-- `BSLocator.get_nth_element` (`i` is a Python `int`, so `Int` here;
Python's `f"{i}"` is `Int.toString`). -/
def get_nth_element (self : BSLocator) (i : Int) : Except String BSLocator :=
  if self.«by» = By.XPATH then
    .ok (BSLocator.xpath ("(" ++ self.value ++ ")[" ++ toString i ++ "]"))
  else if self.«by» = By.CSS_SELECTOR then
    .ok (BSLocator.css (joinWith ", "
      ((cssSubselectors self.value).map (fun ss => ss ++ ":nth-child(" ++ toString i ++ ")"))))
  else
    .error ("Error getting " ++ toString i ++ "-th child of " ++ self.value)

end BSLocator

end BSWebPilot

namespace BSWebPilot

/-- C1: descendant derivation — for every pair of css locators the result is
the comma-rejoined list of `"<sub> <child>"` over the parent's subselectors,
for xpath it is plain string concatenation, and the spec's concrete instance
(`"a, b"` under `"c"` gives `"a c, b c"`) holds. -/
theorem get_descendant_spec (p c : BSLocator) :
    (p.«by» = By.CSS_SELECTOR →
      p.get_descendant c = .ok (BSLocator.css (joinWith ", "
        ((BSLocator.cssSubselectors p.value).map (fun ss => ss ++ " " ++ c.value))))) ∧
    (p.«by» = By.XPATH →
      p.get_descendant c = .ok (BSLocator.xpath (p.value ++ c.value))) ∧
    (BSLocator.css "a, b").get_descendant (BSLocator.css "c") =
      .ok (BSLocator.css "a c, b c") := by
  refine ⟨fun h => ?_, fun h => ?_, by rfl⟩
  · simp [BSLocator.get_descendant, h, By.CSS_SELECTOR, By.XPATH]
  · simp [BSLocator.get_descendant, h, By.XPATH]

/-- Witness for C1 at concrete css and xpath parents. -/
theorem get_descendant_spec_witness :
    (BSLocator.css "a, b").get_descendant (BSLocator.css "c") =
      .ok (BSLocator.css "a c, b c") ∧
    (BSLocator.xpath "//ul").get_descendant (BSLocator.xpath "/li") =
      .ok (BSLocator.xpath "//ul/li") := by
  refine ⟨(get_descendant_spec (BSLocator.css "a, b") (BSLocator.css "c")).2.2, ?_⟩
  exact (get_descendant_spec (BSLocator.xpath "//ul") (BSLocator.xpath "/li")).2.1 rfl

/-- C2: nth derivation — xpath wraps as `(value)[i]` for every integer `i`
(with the spec's concrete instance `nth(3)` on `"//div"`), css appends
`:nth-child(i)` to every comma-separated subselector. -/
theorem get_nth_element_spec (l : BSLocator) (i : Int) :
    (l.«by» = By.XPATH →
      l.get_nth_element i =
        .ok (BSLocator.xpath ("(" ++ l.value ++ ")[" ++ toString i ++ "]"))) ∧
    (l.«by» = By.CSS_SELECTOR →
      l.get_nth_element i = .ok (BSLocator.css (joinWith ", "
        ((BSLocator.cssSubselectors l.value).map
          (fun ss => ss ++ ":nth-child(" ++ toString i ++ ")"))))) ∧
    (BSLocator.xpath "//div").get_nth_element 3 = .ok (BSLocator.xpath "(//div)[3]") := by
  refine ⟨fun h => ?_, fun h => ?_, by rfl⟩
  · simp [BSLocator.get_nth_element, h, By.XPATH]
  · simp [BSLocator.get_nth_element, h, By.CSS_SELECTOR, By.XPATH]

/-- Witness for C2 at concrete xpath and css locators. -/
theorem get_nth_element_spec_witness :
    (BSLocator.xpath "//div").get_nth_element 3 = .ok (BSLocator.xpath "(//div)[3]") ∧
    (BSLocator.css "a, b").get_nth_element 2 =
      .ok (BSLocator.css "a:nth-child(2), b:nth-child(2)") := by
  refine ⟨(get_nth_element_spec (BSLocator.xpath "//div") 3).2.2, ?_⟩
  have h := (get_nth_element_spec (BSLocator.css "a, b") 2).2.1 rfl
  rw [h]; rfl

/-- C3: for each of the eight strategies, both derivations
(`get_descendant`, `get_nth_element`) raise for every strategy other than
css-selector and xpath, and for css-selector and xpath succeed with a new
locator of the same strategy (the receiver is a pure value, never mutated). -/
theorem derivations_strategy_dichotomy (b : String) (hb : b ∈ strategies)
    (v : String) (other : BSLocator) (i : Int) :
    (b = By.CSS_SELECTOR ∨ b = By.XPATH →
      (∃ l : BSLocator, BSLocator.get_descendant ⟨b, v⟩ other = .ok l ∧ l.«by» = b) ∧
      (∃ l : BSLocator, BSLocator.get_nth_element ⟨b, v⟩ i = .ok l ∧ l.«by» = b)) ∧
    (b ≠ By.CSS_SELECTOR ∧ b ≠ By.XPATH →
      (∃ e : String, BSLocator.get_descendant ⟨b, v⟩ other = .error e) ∧
      (∃ e : String, BSLocator.get_nth_element ⟨b, v⟩ i = .error e)) := by
  constructor
  · rintro (h | h) <;> subst h
    · exact ⟨⟨_, rfl, rfl⟩, ⟨_, rfl, rfl⟩⟩
    · exact ⟨⟨_, rfl, rfl⟩, ⟨_, rfl, rfl⟩⟩
  · rintro ⟨h1, h2⟩
    constructor
    · refine ⟨"BSLocator Concatenation Error", ?_⟩
      simp only [BSLocator.get_descendant]
      rw [if_neg h2, if_neg h1]
    · refine ⟨"Error getting " ++ toString i ++ "-th child of " ++ v, ?_⟩
      simp only [BSLocator.get_nth_element]
      rw [if_neg h2, if_neg h1]

/-- Witness for C3: the id strategy (a non-css, non-xpath member of the
enumeration) raises on both derivations. -/
theorem derivations_strategy_dichotomy_witness :
    By.ID ∈ strategies ∧
    ((∃ e : String, BSLocator.get_descendant ⟨By.ID, "x"⟩ (BSLocator.css "c") = .error e) ∧
     (∃ e : String, BSLocator.get_nth_element ⟨By.ID, "x"⟩ 1 = .error e)) :=
  ⟨by decide,
   (derivations_strategy_dichotomy By.ID (by decide) "x" (BSLocator.css "c") 1).2
     ⟨by decide, by decide⟩⟩

end BSWebPilot

namespace BSWebPilot

/-- A DOM element, as far as the wrapped operations observe one: its inner
text, its attribute map, and whether it is visible. -/
structure Element where
  text : String
  attrs : List (String × String)
  visible : Bool
deriving DecidableEq, Repr

/-- Python substring containment (`pat in hay`), structurally recursive.
This also models Playwright's `has_text=` filter on an element's text. -/
def containsSub (pat : List Char) : List Char → Bool
  | [] => pat.isPrefixOf []
  | c :: t => pat.isPrefixOf (c :: t) || containsSub pat t

/-- `pat` occurs as a substring of `hay`. -/
def strContains (hay pat : String) : Bool := containsSub pat.toList hay.toList

/-- Python `str.lower()` (ASCII case folding, which covers the attribute
values the repository compares). -/
def pyLower (s : String) : String := String.mk (s.toList.map Char.toLower)

/-- The exceptions the Playwright wrapper can surface. -/
inductive PWError
  | valueError (msg : String)
  | timeoutError
  | assertionError
  | attributeError
deriving DecidableEq, Repr

/-- A static page for the Playwright wrapper: a fixed map from engine-native
selector strings to the matching elements, in DOM order. -/
structure PWPage where
  dom : List (String × List Element)
deriving DecidableEq, Repr

/-- All elements the page resolves for a selector string (none when the
selector is not in the map). -/
def PWPage.query (p : PWPage) (sel : String) : List Element :=
  match p.dom.lookup sel with
  | some els => els
  | none => []

/- `BSCmfx` (bsplaywright/bscmfx.py).  Each method takes the static page the
wrapped `self.page` is showing; timeouts are threaded as naturals but on a
static page a wait either succeeds at once or runs out. -/
namespace BSCmfx

/-- `BSCmfx.get_pw_locator`: css values pass through, xpath values get the
`xpath=` prefix, anything else raises `ValueError`. -/
def get_pw_locator (locator : BSLocator) : Except PWError String :=
  if locator.«by» = "css selector" then .ok locator.value
  else if locator.«by» = "xpath" then .ok ("xpath=" ++ locator.value)
  else .error (.valueError ("Tipo de selector no válido: " ++ locator.«by»))

/-- `BSCmfx.wait_element_to_be_present`: `expect(...first).to_be_attached`;
on a static page it succeeds iff the selector matches, and the failed
expectation is an `AssertionError`. -/
def wait_element_to_be_present (page : PWPage) (locator : BSLocator)
    (timeout : Nat) : Except PWError Unit :=
  match get_pw_locator locator with
  | .error e => .error e
  | .ok sel => if (page.query sel).isEmpty then .error .assertionError else .ok ()

/-- `BSCmfx.is_element_present`: the `try` body waits for attachment and
returns `True`; only `AssertionError` is caught (yielding `False`), so the
`ValueError` from selector conversion propagates. -/
def is_element_present (page : PWPage) (locator : BSLocator) (timeout : Nat) :
    Except PWError Bool :=
  match wait_element_to_be_present page locator timeout with
  | .ok _ => .ok true
  | .error .assertionError => .ok false
  | .error e => .error e

/-- Whether the first element a selector resolves is visible (`False` when
nothing matches, as Playwright's `is_visible` reports). -/
def first_is_visible (page : PWPage) (sel : String) : Bool :=
  match (page.query sel).head? with
  | some e => e.visible
  | none => false

/-- `BSCmfx.is_element_visible`: `locator.first.is_visible()` inside a
`try/except TimeoutError`; on a static page the answer is immediate, and the
`ValueError` from selector conversion propagates. -/
def is_element_visible (page : PWPage) (locator : BSLocator) (timeout : Nat) :
    Except PWError Bool :=
  match get_pw_locator locator with
  | .error e => .error e
  | .ok sel => .ok (first_is_visible page sel)

/-- `BSCmfx.get_element_text`: `first.inner_text` waits for the element and
raises `TimeoutError` if it never appears; the handler re-raises when
`raise_exception` and returns `None` otherwise. -/
def get_element_text (page : PWPage) (locator : BSLocator) (timeout : Nat)
    (raise_exception : Bool) : Except PWError (Option String) :=
  match get_pw_locator locator with
  | .error e => .error e
  | .ok sel =>
    match (page.query sel).head? with
    | some e => .ok (some e.text)
    | none => if raise_exception then .error .timeoutError else .ok none

/-- `BSCmfx.get_elements_text`: waits for attachment inside
`try/except AssertionError` (returning `[]` on the timeout) and otherwise
collects `all_inner_texts()`. -/
def get_elements_text (page : PWPage) (locator : BSLocator) (timeout : Nat) :
    Except PWError (List String) :=
  match get_pw_locator locator with
  | .error e => .error e
  | .ok sel =>
    if (page.query sel).isEmpty then .ok []
    else .ok ((page.query sel).map Element.text)

/-- `BSCmfx.get_elements_count`: `first.wait_for(state='attached')` inside
`try/except TimeoutError` (returning `0` on the timeout), else `count()`. -/
def get_elements_count (page : PWPage) (locator : BSLocator) (timeout : Nat) :
    Except PWError Nat :=
  match get_pw_locator locator with
  | .error e => .error e
  | .ok sel =>
    if (page.query sel).isEmpty then .ok 0
    else .ok (page.query sel).length

/-- The successive `filter(has_text=...)` / `filter(has_not_text=...)` calls
of `click_element_by_partial_texts`, as the loops run them. -/
def narrowByTexts (els : List Element) (incs excs : List String) : List Element :=
  excs.foldl (fun acc t => acc.filter (fun e => !(strContains e.text t)))
    (incs.foldl (fun acc t => acc.filter (fun e => strContains e.text t)) els)

/-- The element `click_element_by_partial_texts` would click: the first of
the narrowed matches. -/
def partial_texts_target (page : PWPage) (locator : BSLocator)
    (incs excs : List String) : Except PWError (Option Element) :=
  match get_pw_locator locator with
  | .error e => .error e
  | .ok sel => .ok (narrowByTexts (page.query sel) incs excs).head?

/-- `BSCmfx.click_element_by_partial_texts`: first waits for the base
locator to be present OUTSIDE the `try` (so that wait's `AssertionError`
propagates), then narrows by the text filters and clicks the first match;
`first.click` raising `TimeoutError` (empty narrowed set) is caught and
yields `False`. -/
def click_element_by_partial_texts (page : PWPage) (locator : BSLocator)
    (incs excs : List String) (timeout : Nat) : Except PWError Bool :=
  match wait_element_to_be_present page locator timeout with
  | .error e => .error e
  | .ok _ =>
    match get_pw_locator locator with
    | .error e => .error e
    | .ok sel =>
      match (narrowByTexts (page.query sel) incs excs).head? with
      | some _ => .ok true
      | none => .ok false

/-- `BSCmfx.get_attribute_value`: `locator.get_attribute(attr)` waits for
the element (raising `TimeoutError` if it never appears) and returns the
attribute's value, or `None` when the attribute is absent. -/
def get_attribute_value (page : PWPage) (locator : BSLocator) (attr : String)
    (timeout : Nat) : Except PWError (Option String) :=
  match get_pw_locator locator with
  | .error e => .error e
  | .ok sel =>
    match (page.query sel).head? with
    | none => .error .timeoutError
    | some e => .ok (e.attrs.lookup attr)

/-- `BSCmfx.check_attribute_is_equals`:
`attribute_value.lower() == content.lower() if ignore_case else
attribute_value == content`; when the attribute is absent the value is
`None`, so with `ignore_case` the `.lower()` call raises `AttributeError`,
and without it the comparison is Python `None == content`, i.e. `False`. -/
def check_attribute_is_equals (page : PWPage) (locator : BSLocator)
    (attr content : String) (ignore_case : Bool) (timeout : Nat) :
    Except PWError Bool :=
  match get_attribute_value page locator attr timeout with
  | .error e => .error e
  | .ok v =>
    if ignore_case then
      match v with
      | none => .error .attributeError
      | some s => .ok (pyLower s == pyLower content)
    else
      .ok (match v with
           | some s => s == content
           | none => false)

/-- The three handles `BSCmfx.quit` manages: `_camoufox_instance`,
`browser`, `page` (naturals stand for live engine objects). -/
structure Handles where
  camoufox : Option Nat
  browser : Option Nat
  page : Option Nat
deriving DecidableEq, Repr

/-- `BSCmfx.quit`: guarded by `if ... and self._camoufox_instance`; a live
instance is exited (`__aexit__`, the returned flag) and all three handles
are set to `None`; otherwise nothing happens. -/
def quit (s : Handles) : Handles × Bool :=
  match s.camoufox with
  | some _ => (⟨none, none, none⟩, true)
  | none => (s, false)

end BSCmfx

end BSWebPilot

namespace BSWebPilot

/-- The exceptions the Selenium wrapper can surface. -/
inductive SelError
  | timeoutException
  | noSuchElementException
deriving DecidableEq, Repr

/-- Observable driver actions, for stating that element lookup performs a
bounded number of raw lookups and no backoff sleeps. -/
inductive SelAction
  | rawFind
  | sleep
deriving DecidableEq, Repr

/-- A static page for the Selenium wrapper: a fixed map from `(by, value)`
pairs to the matching elements, in DOM order. -/
structure SelPage where
  dom : List ((String × String) × List Element)
deriving DecidableEq, Repr

/-- All elements the driver resolves for a `(by, value)` pair. -/
def SelPage.query (p : SelPage) (k : String × String) : List Element :=
  match p.dom.lookup k with
  | some els => els
  | none => []

/- `BSWebDriver` (bsselenium/webdriver.py). -/
namespace BSWebDriver

/-- One raw `self.driver.find_element(by, value)` call: the first match of
the `k`-th lookup, or `NoSuchElementException`.  `attempts k` is the
driver's answer to the `k`-th raw lookup (for a static page it is a
constant function). -/
def driver_find (attempts : Nat → List Element) (k : Nat) : Except SelError Element :=
  match (attempts k).head? with
  | some e => .ok e
  | none => .error .noSuchElementException

/-- `BSWebDriver.find_element`: try the raw lookup; on
`NoSuchElementException`, re-raise unless `retry`, in which case the
recursive call `find_element(locator, False)` — one more raw lookup, here
unfolded as `driver_find attempts 1` — decides the outcome.  The returned
trace lists the driver actions performed, in order. -/
def find_element (attempts : Nat → List Element) (retry : Bool) :
    Except SelError Element × List SelAction :=
  match (attempts 0).head? with
  | some e => (.ok e, [.rawFind])
  | none =>
    if retry then (driver_find attempts 1, [.rawFind, .rawFind])
    else (.error .noSuchElementException, [.rawFind])

/-- `BSWebDriver.find_elements`: one raw `driver.find_elements` (which
returns a possibly empty list, never raising); when the list is falsy and
`retry` is set, one repeated lookup replaces it. -/
def find_elements (attempts : Nat → List Element) (retry : Bool) :
    List Element × List SelAction :=
  let elements := attempts 0
  if elements.isEmpty && retry then (attempts 1, [.rawFind, .rawFind])
  else (elements, [.rawFind])

/-- `EC.presence_of_element_located` on a static page. -/
def presence_condition (p : SelPage) (locator : BSLocator) : Bool :=
  !(p.query locator.as_tuple).isEmpty

/-- `EC.visibility_of_element_located` on a static page: the located (first)
element is displayed. -/
def visibility_condition (p : SelPage) (locator : BSLocator) : Bool :=
  match (p.query locator.as_tuple).head? with
  | some e => e.visible
  | none => false

/-- `BSWebDriver.is_element_present`: `WebDriverWait(...).until(presence)`
inside `try/except TimeoutException`; works for all eight strategies. -/
def is_element_present (p : SelPage) (locator : BSLocator)
    (tolerance_time : Nat) : Except SelError Bool :=
  if presence_condition p locator then .ok true else .ok false

/-- `BSWebDriver.is_element_displayed`:
`is_element_present(...) and find_element(...).is_displayed()` — the `and`
short-circuits when presence fails; when presence holds on a static page
the plain `find_element` (retry defaulted to `False`) returns the first
match. -/
def is_element_displayed (p : SelPage) (locator : BSLocator)
    (tolerance_time : Nat) : Except SelError Bool :=
  match is_element_present p locator tolerance_time with
  | .error e => .error e
  | .ok false => .ok false
  | .ok true =>
    match (find_element (fun _ => p.query locator.as_tuple) false).1 with
    | .error e => .error e
    | .ok e => .ok e.visible

/-- `BSWebDriver.wait_element_to_be_visible`: waits for visibility; on
timeout re-raises only when `raise_exception` (default `True`). -/
def wait_element_to_be_visible (p : SelPage) (locator : BSLocator)
    (raise_exception : Bool) (tolerance_time : Nat) : Except SelError Unit :=
  if visibility_condition p locator then .ok ()
  else if raise_exception then .error .timeoutException else .ok ()

/-- `BSWebDriver.get_text`: waits for visibility (passing the flag through),
then `return self.find_element(locator).text` inside
`try/except TimeoutException` — but an absent element makes `find_element`
raise `NoSuchElementException`, which that handler does not catch, so it
propagates; only falling off the handler's end would return `None`. -/
def get_text (p : SelPage) (locator : BSLocator) (raise_exception : Bool)
    (timeout : Nat) : Except SelError (Option String) :=
  match wait_element_to_be_visible p locator raise_exception timeout with
  | .error e => .error e
  | .ok _ =>
    match (find_element (fun _ => p.query locator.as_tuple) false).1 with
    | .ok e => .ok (some e.text)
    | .error .timeoutException =>
      if raise_exception then .error .timeoutException else .ok none
    | .error e => .error e

end BSWebDriver

end BSWebPilot

namespace BSWebPilot

/-- Folding successive `filter`s over a list of keys is one `filter` by the
conjunction of the key predicates. -/
theorem foldl_filter_all {α β : Type} (p : β → α → Bool) :
    ∀ (ts : List β) (els : List α),
      ts.foldl (fun acc t => acc.filter (p t)) els =
        els.filter (fun e => ts.all (fun t => p t e))
  | [], els => by simp
  | t :: ts, els => by
    simp only [List.foldl_cons, List.all_cons]
    rw [foldl_filter_all p ts (els.filter (p t)), List.filter_filter]
    exact List.filter_congr (fun a _ => Bool.and_comm _ _)

/-- The head of a filtered list is the first element satisfying the
predicate. -/
theorem head?_filter_eq_find? {α : Type} (p : α → Bool) :
    ∀ l : List α, (l.filter p).head? = l.find? p
  | [] => rfl
  | a :: l => by
    by_cases h : p a <;>
      simp [List.filter_cons, List.find?_cons, h, head?_filter_eq_find? p l]

/-- `find?` succeeds exactly when some element satisfies the predicate. -/
theorem find?_isSome_eq_any {α : Type} (p : α → Bool) :
    ∀ l : List α, (l.find? p).isSome = l.any p
  | [] => rfl
  | a :: l => by
    by_cases h : p a <;> simp [List.find?_cons, h, find?_isSome_eq_any p l]

/-- C4 counterexample: on the Playwright wrapper, a probe with an id-strategy
locator raises `ValueError` from `get_pw_locator` (only `AssertionError` is
caught), so the probes do not return a boolean for every one of the eight
strategies. -/
theorem is_element_present_raises_on_id_strategy :
    BSCmfx.is_element_present ⟨[]⟩ (BSLocator.id "x") 10 =
      .error (.valueError "Tipo de selector no válido: id") := rfl

/-- C4 (amended): for css-selector and xpath locators the Playwright probes
never raise and report attachment / first-element visibility of the static
page; for the six other strategies they raise `ValueError`; the Selenium
probes never raise for all eight strategies and report the presence /
visibility conditions. -/
theorem presence_probes_amended (pw : PWPage) (sp : SelPage) (loc : BSLocator)
    (t : Nat) :
    ((loc.«by» = By.CSS_SELECTOR ∨ loc.«by» = By.XPATH) →
      ∃ sel : String, BSCmfx.get_pw_locator loc = .ok sel ∧
        BSCmfx.is_element_present pw loc t = .ok (!(pw.query sel).isEmpty) ∧
        BSCmfx.is_element_visible pw loc t = .ok (BSCmfx.first_is_visible pw sel)) ∧
    (loc.«by» ≠ By.CSS_SELECTOR ∧ loc.«by» ≠ By.XPATH →
      ∃ m : String,
        BSCmfx.is_element_present pw loc t = .error (.valueError m) ∧
        BSCmfx.is_element_visible pw loc t = .error (.valueError m)) ∧
    BSWebDriver.is_element_present sp loc t =
      .ok (BSWebDriver.presence_condition sp loc) ∧
    BSWebDriver.is_element_displayed sp loc t =
      .ok (BSWebDriver.visibility_condition sp loc) := by
  refine ⟨?_, ?_, ?_, ?_⟩
  · rintro (h | h)
    · refine ⟨loc.value, ?_, ?_, ?_⟩
      · simp [BSCmfx.get_pw_locator, h, By.CSS_SELECTOR]
      · cases hq : (pw.query loc.value).isEmpty <;>
          simp [BSCmfx.is_element_present, BSCmfx.wait_element_to_be_present,
            BSCmfx.get_pw_locator, h, By.CSS_SELECTOR, hq]
      · simp [BSCmfx.is_element_visible, BSCmfx.get_pw_locator, h, By.CSS_SELECTOR]
    · refine ⟨"xpath=" ++ loc.value, ?_, ?_, ?_⟩
      · simp [BSCmfx.get_pw_locator, h, By.XPATH]
      · cases hq : (pw.query ("xpath=" ++ loc.value)).isEmpty <;>
          simp [BSCmfx.is_element_present, BSCmfx.wait_element_to_be_present,
            BSCmfx.get_pw_locator, h, By.XPATH, hq]
      · simp [BSCmfx.is_element_visible, BSCmfx.get_pw_locator, h, By.XPATH]
  · rintro ⟨h1, h2⟩
    refine ⟨"Tipo de selector no válido: " ++ loc.«by», ?_, ?_⟩
    · simp only [BSCmfx.is_element_present, BSCmfx.wait_element_to_be_present,
        BSCmfx.get_pw_locator]
      rw [if_neg (show ¬(loc.«by» = "css selector") from h1),
        if_neg (show ¬(loc.«by» = "xpath") from h2)]
    · simp only [BSCmfx.is_element_visible, BSCmfx.get_pw_locator]
      rw [if_neg (show ¬(loc.«by» = "css selector") from h1),
        if_neg (show ¬(loc.«by» = "xpath") from h2)]
  · cases hc : BSWebDriver.presence_condition sp loc <;>
      simp [BSWebDriver.is_element_present, hc]
  · cases hq : sp.query loc.as_tuple with
    | nil =>
      simp [BSWebDriver.is_element_displayed, BSWebDriver.is_element_present,
        BSWebDriver.presence_condition, BSWebDriver.visibility_condition, hq]
    | cons e rest =>
      simp [BSWebDriver.is_element_displayed, BSWebDriver.is_element_present,
        BSWebDriver.presence_condition, BSWebDriver.visibility_condition,
        BSWebDriver.find_element, hq]

/-- Witness for C4 (amended) on concrete empty pages and a css locator. -/
theorem presence_probes_amended_witness :
    ∃ sel : String, BSCmfx.get_pw_locator (BSLocator.css "div") = .ok sel ∧
      BSCmfx.is_element_present ⟨[]⟩ (BSLocator.css "div") 5 =
        .ok (!((⟨[]⟩ : PWPage).query sel).isEmpty) ∧
      BSCmfx.is_element_visible ⟨[]⟩ (BSLocator.css "div") 5 =
        .ok (BSCmfx.first_is_visible ⟨[]⟩ sel) :=
  (presence_probes_amended ⟨[]⟩ ⟨[]⟩ (BSLocator.css "div") 5).1 (Or.inl rfl)

/-- C5: at an element that never appears, the Playwright text getter obeys
the claim (flag false gives `None`, flag true raises `Timeout`); the
Selenium `get_text` with flag false instead lets `NoSuchElementException`
escape from `find_element` (its handler catches only `TimeoutException`),
contradicting the claimed null return, while flag true raises `Timeout` as
claimed. -/
theorem text_getter_flag_behaviour_at_absent_element :
    BSCmfx.get_element_text ⟨[]⟩ (BSLocator.css "p") 10 false = .ok none ∧
    BSCmfx.get_element_text ⟨[]⟩ (BSLocator.css "p") 10 true = .error .timeoutError ∧
    BSWebDriver.get_text ⟨[]⟩ (BSLocator.id "missing") false 10 =
      .error .noSuchElementException ∧
    BSWebDriver.get_text ⟨[]⟩ (BSLocator.id "missing") true 10 =
      .error .timeoutException :=
  ⟨rfl, rfl, rfl, rfl⟩

end BSWebPilot

namespace BSWebPilot

/-- The element predicate the text filters of
`click_element_by_partial_texts` amount to: every include text occurs in
the element's text and no exclude text does. -/
def textPred (incs excs : List String) (e : Element) : Bool :=
  incs.all (fun s => strContains e.text s) &&
    excs.all (fun s => !(strContains e.text s))

/-- The narrowing loops are one filter by `textPred`. -/
theorem narrowByTexts_eq_filter (els : List Element) (incs excs : List String) :
    BSCmfx.narrowByTexts els incs excs = els.filter (textPred incs excs) := by
  unfold BSCmfx.narrowByTexts
  rw [foldl_filter_all, foldl_filter_all, List.filter_filter]
  exact List.filter_congr (fun a _ => by simp [textPred, Bool.and_comm])

/-- C6 counterexample: when the base locator matches nothing at all, the
presence wait sits OUTSIDE the `try`, so `click_element_by_partial_texts`
raises `AssertionError` instead of returning false. -/
theorem click_by_partial_texts_raises_when_base_absent :
    BSCmfx.click_element_by_partial_texts ⟨[]⟩ (BSLocator.css "li") ["a"] [] 10 =
      .error .assertionError := rfl

/-- C6 (amended): when the base locator matches at least one element,
`click_element_by_partial_texts` returns true iff some match satisfies the
include/exclude text filter (clicking the first such element, per
`partial_texts_target`) and false — without raising — otherwise; when the
base locator matches nothing within the timeout it raises
`AssertionError` from the presence wait. -/
theorem click_by_partial_texts_amended (pw : PWPage) (loc : BSLocator)
    (incs excs : List String) (t : Nat) (sel : String)
    (hsel : BSCmfx.get_pw_locator loc = .ok sel) :
    (pw.query sel = [] →
      BSCmfx.click_element_by_partial_texts pw loc incs excs t =
        .error .assertionError) ∧
    (pw.query sel ≠ [] →
      BSCmfx.click_element_by_partial_texts pw loc incs excs t =
        .ok ((pw.query sel).any (textPred incs excs)) ∧
      BSCmfx.partial_texts_target pw loc incs excs =
        .ok ((pw.query sel).find? (textPred incs excs))) := by
  constructor
  · intro hq
    simp [BSCmfx.click_element_by_partial_texts,
      BSCmfx.wait_element_to_be_present, hsel, hq]
  · intro hq
    have hne : (pw.query sel).isEmpty = false := by
      cases h' : pw.query sel with
      | nil => exact absurd h' hq
      | cons a l => rfl
    constructor
    · simp only [BSCmfx.click_element_by_partial_texts,
        BSCmfx.wait_element_to_be_present, hsel, hne, Bool.false_eq_true,
        if_false, narrowByTexts_eq_filter, head?_filter_eq_find?]
      cases hf : (pw.query sel).find? (textPred incs excs) with
      | none =>
        have ha : (pw.query sel).any (textPred incs excs) = false := by
          rw [← find?_isSome_eq_any, hf]; rfl
        simp [ha]
      | some e =>
        have ha : (pw.query sel).any (textPred incs excs) = true := by
          rw [← find?_isSome_eq_any, hf]; rfl
        simp [ha]
    · simp only [BSCmfx.partial_texts_target, hsel,
        narrowByTexts_eq_filter, head?_filter_eq_find?]

/-- A one-button page used as concrete input. -/
def pageButton : PWPage := ⟨[("button", [⟨"Buy now", [], true⟩])]⟩

/-- Witness for C6 (amended): on `pageButton` the filtered click succeeds
and targets the matching element. -/
theorem click_by_partial_texts_amended_witness :
    BSCmfx.click_element_by_partial_texts pageButton (BSLocator.css "button")
      ["Buy"] ["Sell"] 10 = .ok true ∧
    BSCmfx.partial_texts_target pageButton (BSLocator.css "button")
      ["Buy"] ["Sell"] = .ok (some ⟨"Buy now", [], true⟩) := by
  have h := (click_by_partial_texts_amended pageButton (BSLocator.css "button")
    ["Buy"] ["Sell"] 10 "button" rfl).2 (by decide)
  exact ⟨h.1.trans (by rfl), h.2.trans (by rfl)⟩

/-- C7: a supported locator that matches zero elements makes
`get_elements_text` return the empty list and `get_elements_count` return
0, with the timeouts swallowed rather than raised. -/
theorem zero_match_collections (pw : PWPage) (loc : BSLocator) (t : Nat)
    (sel : String) (hsel : BSCmfx.get_pw_locator loc = .ok sel)
    (hq : pw.query sel = []) :
    BSCmfx.get_elements_text pw loc t = .ok [] ∧
    BSCmfx.get_elements_count pw loc t = .ok 0 := by
  simp [BSCmfx.get_elements_text, BSCmfx.get_elements_count, hsel, hq]

/-- Witness for C7 on the empty page with a css locator. -/
theorem zero_match_collections_witness :
    BSCmfx.get_elements_text ⟨[]⟩ (BSLocator.css "div") 7 = .ok [] ∧
    BSCmfx.get_elements_count ⟨[]⟩ (BSLocator.css "div") 7 = .ok 0 :=
  zero_match_collections ⟨[]⟩ (BSLocator.css "div") 7 "div" rfl rfl

/-- C8: `find_element` performs exactly one repeated raw lookup on a miss
with `retry` set (returning or raising according to that second lookup),
no repeated lookup otherwise; `find_elements` likewise replaces an empty
result with exactly one repeated lookup when `retry` is set; neither trace
ever contains a backoff sleep. -/
theorem find_element_single_retry (attempts : Nat → List Element)
    (retry : Bool) :
    (∀ e, (attempts 0).head? = some e →
      BSWebDriver.find_element attempts retry = (.ok e, [SelAction.rawFind])) ∧
    ((attempts 0).head? = none → retry = true →
      BSWebDriver.find_element attempts retry =
        (BSWebDriver.driver_find attempts 1,
         [SelAction.rawFind, SelAction.rawFind])) ∧
    ((attempts 0).head? = none → retry = false →
      BSWebDriver.find_element attempts retry =
        (.error SelError.noSuchElementException, [SelAction.rawFind])) ∧
    SelAction.sleep ∉ (BSWebDriver.find_element attempts retry).2 ∧
    (attempts 0 ≠ [] ∨ retry = false →
      BSWebDriver.find_elements attempts retry =
        (attempts 0, [SelAction.rawFind])) ∧
    (attempts 0 = [] → retry = true →
      BSWebDriver.find_elements attempts retry =
        (attempts 1, [SelAction.rawFind, SelAction.rawFind])) ∧
    SelAction.sleep ∉ (BSWebDriver.find_elements attempts retry).2 := by
  refine ⟨?_, ?_, ?_, ?_, ?_, ?_, ?_⟩
  · intro e he
    simp [BSWebDriver.find_element, he]
  · intro he hr
    subst hr
    simp [BSWebDriver.find_element, he]
  · intro he hr
    subst hr
    simp [BSWebDriver.find_element, he]
  · cases he : (attempts 0).head? with
    | some e => simp [BSWebDriver.find_element, he]
    | none => cases retry <;> simp [BSWebDriver.find_element, he]
  · intro h
    rcases h with h | h
    · have : (attempts 0).isEmpty = false := by
        cases h' : attempts 0 with
        | nil => exact absurd h' h
        | cons a l => rfl
      simp [BSWebDriver.find_elements, this]
    · subst h
      simp [BSWebDriver.find_elements]
  · intro h hr
    subst hr
    simp [BSWebDriver.find_elements, h]
  · cases he : (attempts 0).isEmpty <;> cases retry <;>
      simp [BSWebDriver.find_elements, he]

/-- Witness for C8: a driver that misses on the first lookup and hits on
the second; with `retry` the second lookup's element is returned after
exactly two raw lookups and no sleep. -/
theorem find_element_single_retry_witness :
    (([] : List Element).head? = none) ∧
    BSWebDriver.find_element (fun k => if k = 0 then [] else [⟨"t", [], true⟩])
      true = (.ok ⟨"t", [], true⟩, [SelAction.rawFind, SelAction.rawFind]) := by
  have h := (find_element_single_retry
    (fun k => if k = 0 then [] else [⟨"t", [], true⟩]) true).2.1 rfl rfl
  exact ⟨rfl, h.trans (by rfl)⟩

/-- C9: `quit` on a live wrapper releases the engine and sets all three
handles to `None`; `quit` on the already-closed wrapper is a no-op that
performs no release, leaves the handles `None`, and (being total) never
raises. -/
theorem quit_idempotent (s : BSCmfx.Handles) (h : s.camoufox.isSome) :
    BSCmfx.quit s = (⟨none, none, none⟩, true) ∧
    BSCmfx.quit (BSCmfx.quit s).1 = ((BSCmfx.quit s).1, false) ∧
    (BSCmfx.quit (BSCmfx.quit s).1).1 = ⟨none, none, none⟩ := by
  obtain ⟨x, hx⟩ := Option.isSome_iff_exists.mp h
  simp [BSCmfx.quit, hx]

/-- Witness for C9 at a fully live handle state. -/
theorem quit_idempotent_witness :
    BSCmfx.quit ⟨some 0, some 1, some 2⟩ = (⟨none, none, none⟩, true) ∧
    BSCmfx.quit (BSCmfx.quit ⟨some 0, some 1, some 2⟩).1 =
      ((BSCmfx.quit ⟨some 0, some 1, some 2⟩).1, false) ∧
    (BSCmfx.quit (BSCmfx.quit ⟨some 0, some 1, some 2⟩).1).1 =
      ⟨none, none, none⟩ :=
  quit_idempotent ⟨some 0, some 1, some 2⟩ rfl

/-- A page whose single div carries no attributes. -/
def pagePlainDiv : PWPage := ⟨[("div", [⟨"hello", [], true⟩])]⟩

/-- C10: with `ignore_case` and an element whose requested attribute is
absent, `check_attribute_is_equals` raises (`None.lower()` is an
`AttributeError`) instead of returning false; and whenever the element
exists and the attribute is present or `ignore_case` is off, it totally
returns a boolean. -/
theorem check_attribute_partiality :
    BSCmfx.check_attribute_is_equals pagePlainDiv (BSLocator.css "div")
      "data-x" "v" true 10 = .error .attributeError ∧
    (∀ (pw : PWPage) (loc : BSLocator) (attr content : String) (ic : Bool)
      (t : Nat) (sel : String) (e : Element),
      BSCmfx.get_pw_locator loc = .ok sel →
      (pw.query sel).head? = some e →
      ((e.attrs.lookup attr).isSome ∨ ic = false) →
      ∃ b : Bool,
        BSCmfx.check_attribute_is_equals pw loc attr content ic t = .ok b) := by
  constructor
  · rfl
  · intro pw loc attr content ic t sel e hsel hhead hpre
    simp only [BSCmfx.check_attribute_is_equals, BSCmfx.get_attribute_value,
      hsel, hhead]
    rcases hpre with hp | hp
    · obtain ⟨s, hs⟩ := Option.isSome_iff_exists.mp hp
      rw [hs]
      cases ic <;> simp
    · subst hp
      cases h : e.attrs.lookup attr <;> simp

/-- Witness for C10's totality clause: `ignore_case=False` with the absent
attribute still yields a boolean. -/
theorem check_attribute_partiality_witness :
    ∃ b : Bool, BSCmfx.check_attribute_is_equals pagePlainDiv
      (BSLocator.css "div") "data-x" "v" false 10 = .ok b :=
  check_attribute_partiality.2 pagePlainDiv (BSLocator.css "div") "data-x"
    "v" false 10 "div" ⟨"hello", [], true⟩ rfl rfl (Or.inr rfl)

end BSWebPilot
